import Mathlib

/-!
# Verification of the toji_electron docker services

Shallow embedding of the two HTTP microservices of the repository:

* `piper-service` (text-to-speech): configuration (`config.py`), the static
  voice catalog, voice-model download (`download_voice_model`), the in-memory
  model cache (`load_voice_model`), synthesis (`synthesize_audio_sync`) and
  the `/tts` handler (`text_to_speech`).
* `whisper-service` (speech recognition): the transcription adapter
  (`transcribe_audio`, `detect_language`) and the output formatters
  (`_format_vtt_output`, `_format_srt_output`, `_seconds_to_vtt_time`,
  `_seconds_to_srt_time`, leading underscores dropped).

Filesystem state is a list of existing paths; network fetches, library
loads and synthesis are abstracted by a `World` of outcome oracles; every
externally visible filesystem / network / library operation is recorded in
an `Event` trace so that "performs no filesystem or network access" claims
are expressible.  Python floats are modelled as rationals: every concrete
time value appearing in the claims (3661.5 s) is exactly representable in
binary floating point, and all arithmetic the formatters perform on it is
exact, so the rational model agrees with the source on these inputs.
-/

/-! ## Piper TTS service: configuration (`piper-service/config.py`) -/

/-- One entry of `EXTENDED_VOICE_CATALOG` in `piper-service/config.py`. -/
structure VoiceCatalogEntry where
  language : String
  speaker : String
  quality : String
  sample_rate : Nat
  gender : String
  base_url : String
deriving DecidableEq, Repr

/-- The static voice catalog `EXTENDED_VOICE_CATALOG` of
`piper-service/config.py` (re-exported as `VOICE_CATALOG` by `service.py`). -/
def EXTENDED_VOICE_CATALOG : List (String × VoiceCatalogEntry) :=
  [ ("en_US-lessac-medium",
      ⟨"English (US)", "Lessac", "medium", 22050, "female",
        "https://huggingface.co/rhasspy/piper-voices/resolve/v1.0.0/en/en_US/lessac/medium"⟩),
    ("en_US-lessac-low",
      ⟨"English (US)", "Lessac", "low", 16000, "female",
        "https://huggingface.co/rhasspy/piper-voices/resolve/v1.0.0/en/en_US/lessac/low"⟩),
    ("en_US-amy-medium",
      ⟨"English (US)", "Amy", "medium", 22050, "female",
        "https://huggingface.co/rhasspy/piper-voices/resolve/v1.0.0/en/en_US/amy/medium"⟩),
    ("en_US-amy-low",
      ⟨"English (US)", "Amy", "low", 16000, "female",
        "https://huggingface.co/rhasspy/piper-voices/resolve/v1.0.0/en/en_US/amy/low"⟩),
    ("en_US-danny-low",
      ⟨"English (US)", "Danny", "low", 16000, "male",
        "https://huggingface.co/rhasspy/piper-voices/resolve/v1.0.0/en/en_US/danny/low"⟩),
    ("en_GB-alan-medium",
      ⟨"English (GB)", "Alan", "medium", 22050, "male",
        "https://huggingface.co/rhasspy/piper-voices/resolve/v1.0.0/en/en_GB/alan/medium"⟩),
    ("en_GB-alan-low",
      ⟨"English (GB)", "Alan", "low", 16000, "male",
        "https://huggingface.co/rhasspy/piper-voices/resolve/v1.0.0/en/en_GB/alan/low"⟩),
    ("es_ES-marta-medium",
      ⟨"Spanish (Spain)", "Marta", "medium", 22050, "female",
        "https://huggingface.co/rhasspy/piper-voices/resolve/v1.0.0/es/es_ES/marta/medium"⟩),
    ("fr_FR-upmc-medium",
      ⟨"French (France)", "UPMC", "medium", 22050, "female",
        "https://huggingface.co/rhasspy/piper-voices/resolve/v1.0.0/fr/fr_FR/upmc/medium"⟩),
    ("de_DE-thorsten-medium",
      ⟨"German (Germany)", "Thorsten", "medium", 22050, "male",
        "https://huggingface.co/rhasspy/piper-voices/resolve/v1.0.0/de/de_DE/thorsten/medium"⟩) ]

/-- The `ServiceConfig` class of `piper-service/config.py`: the validated settings
object, with each field read from its environment variable at startup. -/
structure ServiceConfig where
  host : String
  port : Nat
  models_dir : String
  default_voice : String
  max_text_length : Nat
  max_concurrent_requests : Nat
  model_cache_size : Nat
  log_level : String
  log_file : String
deriving DecidableEq, Repr

/-- The validator `ServiceConfig._validate` of `piper-service/config.py`: `True` iff the
constructor would not raise `ValueError`. -/
def ServiceConfig.validate (c : ServiceConfig) : Bool :=
  decide (1 ≤ c.port) && decide (c.port ≤ 65535) &&
  decide (1 ≤ c.max_text_length) &&
  decide (1 ≤ c.max_concurrent_requests) &&
  decide (1 ≤ c.model_cache_size) &&
  (c.log_level ∈ ["DEBUG", "INFO", "WARNING", "ERROR", "CRITICAL"] : Bool)

/-- The configuration built from environment defaults (all `os.getenv`
fallbacks of `ServiceConfig.__init__`). -/
def default_config : ServiceConfig :=
  { host := "0.0.0.0", port := 9001, models_dir := "models/piper",
    default_voice := "en_US-lessac-low", max_text_length := 10000,
    max_concurrent_requests := 10, model_cache_size := 5,
    log_level := "INFO", log_file := "logs/piper-service.log" }

/-! ## Piper TTS service: model acquisition (`piper-service/service.py`) -/

/-- The model artifact path `config.models_dir / f"{voice_name}.onnx"` (line 86). -/
def model_path (cfg : ServiceConfig) (voice_name : String) : String :=
  cfg.models_dir ++ "/" ++ voice_name ++ ".onnx"

/-- The metadata artifact path `config.models_dir / f"{voice_name}.onnx.json"` (line 87). -/
def config_path (cfg : ServiceConfig) (voice_name : String) : String :=
  cfg.models_dir ++ "/" ++ voice_name ++ ".onnx.json"

/-- The `piper.PiperVoice` handle returned by `piper.PiperVoice.load`;
opaque to the service except for `config.sample_rate`. -/
structure PiperVoice where
  sample_rate : Nat
deriving DecidableEq, Repr

/-- Externally visible operations: filesystem existence checks and
deletions, network fetches, library model loads and synthesis calls. -/
inductive Event where
  | fsExists (path : String)
  | fsUnlink (path : String)
  | netFetch (url : String)
  | libLoad (model_path config_path : String)
  | libSynth (text : String) (voice_model : PiperVoice)
deriving DecidableEq, Repr

/-- Oracles for the outcomes of the delegated operations:
`fetchOk url` tells whether `urllib.request.urlretrieve(url, ...)` succeeds,
`partialOnFail url` whether a failed retrieve leaves a partial file behind,
`loadOk` the outcome of `piper.PiperVoice.load`, and `synth` the audio frames
produced by `voice_model.synthesize(text, wav_file)` (`none` = exception). -/
structure World where
  fetchOk : String → Bool
  partialOnFail : String → Bool
  loadOk : String → String → Option PiperVoice
  synth : String → PiperVoice → Option (List Nat)

/-- Embeds `Path.unlink`: the filesystem is the list of existing paths. -/
def unlink (fs : List String) (p : String) : List String :=
  fs.filter (fun q => q != p)

/-- The mutable globals of `piper-service/service.py`: the filesystem and
the `voice_models` model cache (voice identifier → loaded handle). -/
structure PiperState where
  fs : List String
  voice_models : List (String × PiperVoice)
deriving DecidableEq, Repr

/-- One `if not path.exists(): urllib.request.urlretrieve(url, path)` step
inside the `try` of `download_voice_model` (lines 99-110).  Returns
`(success, filesystem, events)`; on a failed retrieve the target may or may
not be left behind as a partial file (`World.partialOnFail`). -/
def fetch_if_missing (w : World) (fs : List String) (url path : String) :
    Bool × List String × List Event :=
  if path ∈ fs then
    (true, fs, [Event.fsExists path])
  else if w.fetchOk url then
    (true, path :: fs, [Event.fsExists path, Event.netFetch url])
  else
    (false, if w.partialOnFail url then path :: fs else fs,
      [Event.fsExists path, Event.netFetch url])

/-- One iteration of the cleanup loop of `download_voice_model`
(lines 117-119): `if path.exists(): path.unlink()`. -/
def unlink_if_exists (fs : List String) (p : String) :
    List String × List Event :=
  if p ∈ fs then (unlink fs p, [Event.fsExists p, Event.fsUnlink p])
  else (fs, [Event.fsExists p])

/-- The `except` block of `download_voice_model` (lines 116-119):
`for path in [model_path, config_path]: if path.exists(): path.unlink()`. -/
def cleanup_loop (fs : List String) (mp cp : String) :
    List String × List Event :=
  let s1 := unlink_if_exists fs mp
  let s2 := unlink_if_exists s1.1 cp
  (s2.1, s1.2 ++ s2.2)

/-- Embeds `download_voice_model` (`piper-service/service.py` lines 81-120).
Result is `.ok (model_path, config_path)` or `.error (status, detail)`
(a raised `HTTPException`), together with the final filesystem and the
event trace.  The catalog check precedes every filesystem and network
operation; the existence test `model_path.exists() and config_path.exists()`
short-circuits; a failure of either retrieve runs the cleanup loop and
raises a 500. -/
def download_voice_model (cfg : ServiceConfig) (w : World) (fs : List String)
    (voice_name : String) :
    Except (Nat × String) (String × String) × List String × List Event :=
  match List.lookup voice_name EXTENDED_VOICE_CATALOG with
  | none =>
      (.error (404, "Voice " ++ voice_name ++ " not found in catalog"), fs, [])
  | some voice_info =>
      let mp := model_path cfg voice_name
      let cp := config_path cfg voice_name
      let checkEv := if mp ∈ fs then [Event.fsExists mp, Event.fsExists cp]
                     else [Event.fsExists mp]
      if mp ∈ fs ∧ cp ∈ fs then
        (.ok (mp, cp), fs, checkEv)
      else
        let model_url := voice_info.base_url ++ "/" ++ voice_name ++ ".onnx"
        let config_url := voice_info.base_url ++ "/" ++ voice_name ++ ".onnx.json"
        match fetch_if_missing w fs model_url mp with
        | (false, fs1, ev1) =>
            let c := cleanup_loop fs1 mp cp
            (.error (500, "Failed to download voice model: fetch failed"),
              c.1, checkEv ++ ev1 ++ c.2)
        | (true, fs1, ev1) =>
            match fetch_if_missing w fs1 config_url cp with
            | (false, fs2, ev2) =>
                let c := cleanup_loop fs2 mp cp
                (.error (500, "Failed to download voice model: fetch failed"),
                  c.1, checkEv ++ ev1 ++ ev2 ++ c.2)
            | (true, fs2, ev2) =>
                (.ok (mp, cp), fs2, checkEv ++ ev1 ++ ev2)

/-- Embeds `str(e)` of a `fastapi.HTTPException`: `"{status_code}: {detail}"`. -/
def errStr : Nat × String → String
  | (code, detail) => Nat.repr code ++ ": " ++ detail

/-- Embeds `load_voice_model` (`piper-service/service.py` lines 123-147).
Cache hit returns immediately; otherwise download then
`piper.PiperVoice.load`; on success the handle is inserted into
`voice_models` (only after both steps succeeded).  The `except Exception`
at line 145 catches every exception — including the `HTTPException` raised
inside `download_voice_model` — and re-raises it as a 500. -/
def load_voice_model (cfg : ServiceConfig) (w : World) (st : PiperState)
    (voice_name : String) :
    Except (Nat × String) PiperVoice × PiperState × List Event :=
  match List.lookup voice_name st.voice_models with
  | some m => (.ok m, st, [])
  | none =>
      match download_voice_model cfg w st.fs voice_name with
      | (.error e, fs1, tr) =>
          (.error (500, "Failed to load voice model: " ++ errStr e),
            { st with fs := fs1 }, tr)
      | (.ok (mp, cp), fs1, tr) =>
          match w.loadOk mp cp with
          | none =>
              (.error (500, "Failed to load voice model: load failed"),
                { st with fs := fs1 }, tr ++ [Event.libLoad mp cp])
          | some voice_model =>
              (.ok voice_model,
                { fs := fs1,
                  voice_models := (voice_name, voice_model) :: st.voice_models },
                tr ++ [Event.libLoad mp cp])

/-! ## Piper TTS service: synthesis and the `/tts` handler -/

/-- A validated `TTSRequest` (`service.py` lines 28-32); `speed` is the
pydantic default `1.0` when absent. -/
structure TTSRequest where
  text : String
  voice : Option String
  speed : ℚ
deriving DecidableEq

/-- The pydantic validation of `TTSRequest`: `text` has `min_length=1`,
`max_length=10000` (both literals in the `Field` call), `speed` has
`ge=0.5, le=2.0` (`mkRat 1 2 = 0.5`).  A violation is rejected by FastAPI
with a 422 before the handler runs. -/
def parse_tts_request (text : String) (voice : Option String) (speed : ℚ) :
    Except (Nat × String) TTSRequest :=
  if text.length < 1 then .error (422, "text too short")
  else if 10000 < text.length then .error (422, "text too long")
  else if speed < mkRat 1 2 ∨ 2 < speed then .error (422, "speed out of range")
  else .ok ⟨text, voice, speed⟩

/-- The WAV byte buffer assembled by `synthesize_audio_sync`
(lines 150-167): mono, 16-bit, the model's native sample rate. -/
structure WavData where
  nchannels : Nat
  sampwidth : Nat
  framerate : Nat
  frames : List Nat
deriving DecidableEq, Repr

/-- Embeds `synthesize_audio_sync` (`service.py` lines 150-167): wraps the frames
produced by `voice_model.synthesize(text, wav_file)` in a WAV container
with `setnchannels(1)`, `setsampwidth(2)`,
`setframerate(voice_model.config.sample_rate)`; `none` = library exception. -/
def synthesize_audio_sync (w : World) (text : String)
    (voice_model : PiperVoice) : Option WavData :=
  (w.synth text voice_model).map
    (fun frames => ⟨1, 2, voice_model.sample_rate, frames⟩)

/-- Embeds `request.voice or config.default_voice` (line 180): Python `or` treats
both `None` and the empty string as falsy. -/
def effective_voice (cfg : ServiceConfig) (voice : Option String) : String :=
  match voice with
  | some v => if v = "" then cfg.default_voice else v
  | none => cfg.default_voice

/-- The `/tts` handler `text_to_speech` (`service.py` lines 172-208), after
pydantic validation.  The handler passes only `request.text` and the
loaded handle to `synthesize_audio_sync` (`request.speed` is never used);
any exception is re-raised as a 500. -/
def text_to_speech (cfg : ServiceConfig) (w : World) (st : PiperState)
    (request : TTSRequest) :
    Except (Nat × String) WavData × PiperState × List Event :=
  match load_voice_model cfg w st (effective_voice cfg request.voice) with
  | (.error e, st1, tr) =>
      (.error (500, "TTS generation failed: " ++ errStr e), st1, tr)
  | (.ok voice_model, st1, tr) =>
      match synthesize_audio_sync w request.text voice_model with
      | none =>
          (.error (500, "TTS generation failed: synthesis error"), st1,
            tr ++ [Event.libSynth request.text voice_model])
      | some audio_data =>
          (.ok audio_data, st1,
            tr ++ [Event.libSynth request.text voice_model])

/-- The full `POST /tts` path: FastAPI/pydantic request validation, then
the handler.  A validation failure is rejected before the handler runs:
the state is untouched and the event trace is empty. -/
def post_tts (cfg : ServiceConfig) (w : World) (st : PiperState)
    (text : String) (voice : Option String) (speed : ℚ) :
    Except (Nat × String) WavData × PiperState × List Event :=
  match parse_tts_request text voice speed with
  | .error e => (.error e, st, [])
  | .ok request => text_to_speech cfg w st request

/-- The cache invariant: every handle present in `voice_models` is one a
successful `piper.PiperVoice.load` produced for that voice's artifact
paths. -/
def CacheOK (cfg : ServiceConfig) (w : World) (st : PiperState) : Prop :=
  ∀ v m, List.lookup v st.voice_models = some m →
    w.loadOk (model_path cfg v) (config_path cfg v) = some m

/-! ## Whisper ASR service: data model (`whisper-service/service.py`) -/

/-- One word of a transcription segment (faster-whisper `Word`). -/
structure WordInfo where
  word : String
  start : ℚ
  end_ : ℚ
  probability : ℚ
deriving DecidableEq

/-- One transcription segment (faster-whisper `Segment`): start/end times in
seconds, text, and word-level detail when word timestamps were requested
(`end` is a reserved word in Lean, hence `end_`). -/
structure Segment where
  start : ℚ
  end_ : ℚ
  text : String
  words : Option (List WordInfo)
deriving DecidableEq

/-- The per-call info object (faster-whisper `TranscriptionInfo`). -/
structure TranscriptionInfo where
  language : String
  language_probability : ℚ
  duration : ℚ
deriving DecidableEq

/-! ## Whisper ASR service: timestamp formatting

Python `%` and `//` on non-negative floats are the remainder and floor
operations below; `int(x)` truncates toward zero, which on the non-negative
values appearing here is the floor. -/

/-- Python `a % b` for `b > 0`. -/
def pyMod (a b : ℚ) : ℚ := a - b * ⌊a / b⌋

/-- Python `int(q)`: truncation toward zero. -/
def pyInt (q : ℚ) : ℤ := if 0 ≤ q then ⌊q⌋ else -⌊-q⌋

/-- Embeds `f"{n:02d}"` for the non-negative values rendered here. -/
def pad2 (n : Nat) : String :=
  if n < 10 then "0" ++ Nat.repr n else Nat.repr n

/-- Three-digit zero padding (the `,mmm` / `.mmm` field). -/
def pad3 (n : Nat) : String :=
  if n < 10 then "00" ++ Nat.repr n
  else if n < 100 then "0" ++ Nat.repr n
  else Nat.repr n

/-- Embeds `f"{seconds:06.3f}"` for `0 ≤ seconds < 100`: the value rounded to
three decimals, zero-padded to two integer digits. -/
def fmtSecs6_3 (seconds : ℚ) : String :=
  let ms := (round (seconds * 1000)).toNat
  pad2 (ms / 1000) ++ "." ++ pad3 (ms % 1000)

/-- Embeds `_seconds_to_vtt_time` (`whisper-service/service.py` lines 227-232). -/
def seconds_to_vtt_time (seconds : ℚ) : String :=
  let hours := ⌊seconds / 3600⌋
  let minutes := ⌊(pyMod seconds 3600) / 60⌋
  let secs := pyMod seconds 60
  pad2 hours.toNat ++ ":" ++ pad2 minutes.toNat ++ ":" ++ fmtSecs6_3 secs

/-- Embeds `_seconds_to_srt_time` (`whisper-service/service.py` lines 234-241). -/
def seconds_to_srt_time (seconds : ℚ) : String :=
  let hours := ⌊seconds / 3600⌋
  let minutes := ⌊(pyMod seconds 3600) / 60⌋
  let secs := pyMod seconds 60
  let milliseconds := pyInt ((pyMod secs 1) * 1000)
  let whole := pyInt secs
  pad2 hours.toNat ++ ":" ++ pad2 minutes.toNat ++ ":" ++
    pad2 whole.toNat ++ "," ++ pad3 milliseconds.toNat

/-! ## Whisper ASR service: output formatters -/

/-- The `vtt_lines` list built by `_format_vtt_output` (lines 204-213). -/
def format_vtt_lines (segments : List Segment) : List String :=
  match segments with
  | [] => []
  | segment :: rest =>
      (seconds_to_vtt_time segment.start ++ " --> " ++
        seconds_to_vtt_time segment.end_) ::
      segment.text :: "" :: format_vtt_lines rest

/-- Embeds `_format_vtt_output`: header then cue blocks, newline-joined. -/
def format_vtt_output (segments : List Segment) : String :=
  String.intercalate "\n" ("WEBVTT" :: "" :: format_vtt_lines segments)

/-- The `srt_lines` list built by `_format_srt_output` (lines 215-225):
`enumerate(segments, 1)` carried as the explicit counter `i`. -/
def format_srt_lines (i : Nat) (segments : List Segment) : List String :=
  match segments with
  | [] => []
  | segment :: rest =>
      Nat.repr i ::
      (seconds_to_srt_time segment.start ++ " --> " ++
        seconds_to_srt_time segment.end_) ::
      segment.text :: "" :: format_srt_lines (i + 1) rest

/-- Embeds `_format_srt_output`: numbered cue blocks, newline-joined. -/
def format_srt_output (segments : List Segment) : String :=
  String.intercalate "\n" (format_srt_lines 1 segments)

/-- One word entry of `_format_json_output` (lines 186-198). -/
structure JsonWord where
  word : String
  start : ℚ
  end_ : ℚ
  probability : ℚ
deriving DecidableEq

/-- One segment entry of `_format_json_output` (lines 180-201). -/
structure JsonSegment where
  id : Nat
  start : ℚ
  end_ : ℚ
  text : String
  words : List JsonWord
deriving DecidableEq

/-- The full JSON payload of `_format_json_output` (lines 173-202). -/
structure JsonOutput where
  text : String
  language : String
  language_probability : ℚ
  duration : ℚ
  segments : List JsonSegment
deriving DecidableEq

/-- Embeds `_format_json_output` (`whisper-service/service.py` lines 173-202). -/
def format_json_output (segments : List Segment) (info : TranscriptionInfo) :
    JsonOutput :=
  { text := String.intercalate " " (segments.map Segment.text),
    language := info.language,
    language_probability := info.language_probability,
    duration := info.duration,
    segments := (segments.enum).map (fun p =>
      { id := p.1, start := p.2.start, end_ := p.2.end_, text := p.2.text,
        words := match p.2.words with
          | some ws => ws.map (fun w => ⟨w.word, w.start, w.end_, w.probability⟩)
          | none => [] }) }

/-- The response dictionary of `transcribe_audio`: exactly one of the keys
`text` / `vtt` / `srt`, or the JSON payload. -/
inductive TransOutput where
  | text (s : String)
  | json (j : JsonOutput)
  | vtt (s : String)
  | srt (s : String)
deriving DecidableEq

/-- The `if output_format == ...` chain of `transcribe_audio`
(lines 151-160); every unknown format falls back to the `txt` rendering. -/
def format_transcription (output_format : String) (segments : List Segment)
    (info : TranscriptionInfo) : TransOutput :=
  if output_format = "json" then .json (format_json_output segments info)
  else if output_format = "txt" then
    .text (String.intercalate " " (segments.map Segment.text))
  else if output_format = "vtt" then .vtt (format_vtt_output segments)
  else if output_format = "srt" then .srt (format_srt_output segments)
  else .text (String.intercalate " " (segments.map Segment.text))

/-! ## Whisper ASR service: transcription adapter -/

/-- Outcomes of the delegated `self.model.transcribe` calls: `transcribe b`
is the result of the full transcription call with `word_timestamps = b`
(`none` = exception), `detect` that of the minimal `beam_size=1, best_of=1`
call made by `detect_language`. -/
structure WhisperWorld where
  transcribe : Bool → Option (List Segment × TranscriptionInfo)
  detect : Option (List Segment × TranscriptionInfo)

/-- Embeds `WhisperService.transcribe_audio` (`whisper-service/service.py` lines
118-171).  The upload is staged to a fresh temporary file, the library
call runs inside `try`, and the `finally` block unlinks the temporary file
on both the success and the exception path; `word_timestamps` is `True`
exactly for the `json` output format.  Returns the handler result and the
final filesystem. -/
def transcribe_audio (w : WhisperWorld) (fs : List String)
    (temp_path : String) (task : String) (language : Option String)
    (initial_prompt : Option String) (output_format : String) :
    Except (Nat × String) TransOutput × List String :=
  let fs1 := temp_path :: fs
  match w.transcribe (output_format == "json") with
  | none =>
      (.error (500, "Transcription failed: inference error"),
        unlink fs1 temp_path)
  | some (segments, info) =>
      (.ok (format_transcription output_format segments info),
        unlink fs1 temp_path)

/-- Embeds `WhisperService.detect_language` (`whisper-service/service.py` lines
243-265): same staging and guaranteed-unlink shape, minimal inference,
returns only the detected language and its probability. -/
def detect_language (w : WhisperWorld) (fs : List String)
    (temp_path : String) :
    Except (Nat × String) (String × ℚ) × List String :=
  let fs1 := temp_path :: fs
  match w.detect with
  | none =>
      (.error (500, "Language detection failed: inference error"),
        unlink fs1 temp_path)
  | some (_, info) =>
      (.ok (info.language, info.language_probability), unlink fs1 temp_path)

/-- The space-joined concatenation of the segment texts in segment order,
written as the specification words it (primitive recursion with a single
space between adjacent texts); compared against the source's
`" ".join(...)` in the `txt`-output claim. -/
def spec_space_join : List String → String
  | [] => ""
  | [x] => x
  | x :: y :: rest => x ++ " " ++ spec_space_join (y :: rest)

/-! ## Supporting lemmas -/

theorem not_mem_unlink_self (fs : List String) (p : String) :
    p ∉ unlink fs p := by
  simp [unlink, List.mem_filter]

theorem mem_unlink {fs : List String} {p q : String}
    (h : q ∈ unlink fs p) : q ∈ fs := by
  simp [unlink, List.mem_filter] at h
  exact h.1

theorem unlink_if_exists_not_self (fs : List String) (p : String) :
    p ∉ (unlink_if_exists fs p).1 := by
  unfold unlink_if_exists
  split
  · exact not_mem_unlink_self fs p
  · next h => exact h

theorem unlink_if_exists_mem {fs : List String} {p q : String}
    (h : q ∈ (unlink_if_exists fs p).1) : q ∈ fs := by
  unfold unlink_if_exists at h
  split at h
  · exact mem_unlink h
  · exact h

/-- The cleanup loop leaves neither artifact path on disk. -/
theorem cleanup_loop_clears (fs : List String) (mp cp : String) :
    mp ∉ (cleanup_loop fs mp cp).1 ∧ cp ∉ (cleanup_loop fs mp cp).1 := by
  unfold cleanup_loop
  refine ⟨fun h => ?_, unlink_if_exists_not_self _ _⟩
  exact unlink_if_exists_not_self fs mp (unlink_if_exists_mem h)

theorem intercalate_go_spec : ∀ (l : List String) (acc : String),
    String.intercalate.go acc " " l = spec_space_join (acc :: l) := by
  intro l
  induction l with
  | nil => intro acc; rfl
  | cons a as ih =>
    intro acc
    rw [String.intercalate.go, ih]
    cases as with
    | nil => simp [spec_space_join]
    | cons b bs => simp [spec_space_join, String.append_assoc]

/-- Joining with `" ".join(texts)` is the space-joined concatenation in order. -/
theorem intercalate_space_eq_spec_space_join (l : List String) :
    String.intercalate " " l = spec_space_join l := by
  cases l with
  | nil => rfl
  | cons a as => rw [String.intercalate, intercalate_go_spec]

/-! ## Witness fixtures: concrete worlds, configurations and data -/

/-- A world in which every fetch, load and synthesis succeeds. -/
def w_ok : World :=
  ⟨fun _ => true, fun _ => false, fun _ _ => some ⟨16000⟩, fun _ _ => some [0]⟩

/-- A world in which every network fetch fails (leaving no partial file). -/
def w_net_down : World :=
  ⟨fun _ => false, fun _ => false, fun _ _ => some ⟨16000⟩, fun _ _ => some [0]⟩

/-- The service state at startup: empty filesystem, empty model cache. -/
def st_empty : PiperState := ⟨[], []⟩

def demo_segments : List Segment :=
  [⟨0, 0, "hello", none⟩, ⟨0, 0, "world", none⟩]

def demo_info : TranscriptionInfo := ⟨"en", 0, 0⟩

/-- A whisper world whose inference calls succeed with `demo_segments`. -/
def w_demo : WhisperWorld :=
  ⟨fun _ => some (demo_segments, demo_info), some (demo_segments, demo_info)⟩

/-! ## Claim theorems -/

/-- C7: for every list of transcription segments, the `txt` output of the
transcription adapter equals the concatenation of the segments' text fields
in segment order, joined by single spaces. -/
theorem txt_output_is_space_joined (w : WhisperWorld) (fs : List String)
    (temp_path task : String) (language initial_prompt : Option String)
    (segments : List Segment) (info : TranscriptionInfo)
    (h : w.transcribe false = some (segments, info)) :
    (transcribe_audio w fs temp_path task language initial_prompt "txt").1
      = .ok (.text (spec_space_join (segments.map Segment.text))) := by
  have hb : (("txt" : String) == "json") = false := rfl
  have hne : ("txt" : String) ≠ "json" := by decide
  simp only [transcribe_audio, hb, h, format_transcription, if_neg hne,
    if_pos rfl, if_true, intercalate_space_eq_spec_space_join]

theorem txt_output_is_space_joined_witness :
    w_demo.transcribe false = some (demo_segments, demo_info)
    ∧ (transcribe_audio w_demo [] "/tmp/audio.wav" "transcribe" none none
        "txt").1 = .ok (.text "hello world") :=
  ⟨rfl, txt_output_is_space_joined w_demo [] "/tmp/audio.wav" "transcribe"
    none none demo_segments demo_info rfl⟩

/-- C8: the temporary audio file staged for a transcription or
language-detection call does not exist after the call, whether inference
succeeds or raises. -/
theorem temp_file_removed_after_call (w : WhisperWorld) (fs : List String)
    (temp_path task : String) (language initial_prompt : Option String)
    (output_format : String) :
    temp_path ∉ (transcribe_audio w fs temp_path task language
      initial_prompt output_format).2
    ∧ temp_path ∉ (detect_language w fs temp_path).2 := by
  constructor
  · simp only [transcribe_audio]
    split <;> exact not_mem_unlink_self _ _
  · simp only [detect_language]
    split <;> exact not_mem_unlink_self _ _

/-- C9: the validated `speed` parameter of a TTS request has no effect:
for the same text and voice and any two in-range speeds, the `/tts`
handler performs the same synthesis call (same event trace) and returns
the same audio bytes, both as the bare handler and through request
validation. -/
theorem speed_has_no_effect (cfg : ServiceConfig) (w : World)
    (st : PiperState) (text : String) (voice : Option String) (s1 s2 : ℚ)
    (h1 : mkRat 1 2 ≤ s1 ∧ s1 ≤ 2) (h2 : mkRat 1 2 ≤ s2 ∧ s2 ≤ 2) :
    text_to_speech cfg w st ⟨text, voice, s1⟩
      = text_to_speech cfg w st ⟨text, voice, s2⟩
    ∧ post_tts cfg w st text voice s1 = post_tts cfg w st text voice s2 := by
  have hs1 : ¬(s1 < mkRat 1 2 ∨ 2 < s1) := by
    push_neg
    exact ⟨h1.1, h1.2⟩
  have hs2 : ¬(s2 < mkRat 1 2 ∨ 2 < s2) := by
    push_neg
    exact ⟨h2.1, h2.2⟩
  refine ⟨rfl, ?_⟩
  unfold post_tts parse_tts_request
  split_ifs <;> rfl

theorem speed_has_no_effect_witness :
    (mkRat 1 2 ≤ (1 : ℚ) ∧ (1 : ℚ) ≤ 2)
    ∧ (mkRat 1 2 ≤ (2 : ℚ) ∧ (2 : ℚ) ≤ 2)
    ∧ (text_to_speech default_config w_ok st_empty ⟨"hi", none, 1⟩
        = text_to_speech default_config w_ok st_empty ⟨"hi", none, 2⟩
      ∧ post_tts default_config w_ok st_empty "hi" none 1
        = post_tts default_config w_ok st_empty "hi" none 2) :=
  ⟨by decide, by decide,
    speed_has_no_effect default_config w_ok st_empty "hi" none 1 2
      (by decide) (by decide)⟩

/-- C5: after a successful `load_voice_model` call, a second call with the
same identifier is a pure cache hit: it returns the same handle, leaves the
state unchanged, and performs no filesystem, network or library operation
(empty event trace). -/
theorem cache_hit_idempotent (cfg : ServiceConfig) (w : World)
    (st : PiperState) (voice_name : String) (m : PiperVoice)
    (h : (load_voice_model cfg w st voice_name).1 = .ok m) :
    load_voice_model cfg w (load_voice_model cfg w st voice_name).2.1
      voice_name
      = (.ok m, (load_voice_model cfg w st voice_name).2.1, []) := by
  have hlk : List.lookup voice_name
      ((load_voice_model cfg w st voice_name).2.1).voice_models = some m := by
    unfold load_voice_model at h ⊢
    cases hc : List.lookup voice_name st.voice_models with
    | some m0 =>
        simp only [hc] at h ⊢
        simp only [Except.ok.injEq] at h
        exact congrArg some h
    | none =>
        simp only [hc] at h ⊢
        rcases hd : download_voice_model cfg w st.fs voice_name
          with ⟨res, fs1, tr⟩
        rw [hd] at h
        cases res with
        | error e => simp at h
        | ok mpcp =>
            obtain ⟨mp, cp⟩ := mpcp
            cases hl : w.loadOk mp cp with
            | none => simp [hl] at h
            | some vm =>
                simp only [hl, Except.ok.injEq] at h
                simp [List.lookup, hl, h]
  generalize hS : (load_voice_model cfg w st voice_name).2.1 = S at hlk ⊢
  simp only [load_voice_model, hlk]

theorem cache_hit_idempotent_witness :
    (load_voice_model default_config w_ok
        ⟨[], [("en_US-lessac-low", ⟨16000⟩)]⟩ "en_US-lessac-low").1
      = .ok ⟨16000⟩
    ∧ load_voice_model default_config w_ok
        (load_voice_model default_config w_ok
          ⟨[], [("en_US-lessac-low", ⟨16000⟩)]⟩ "en_US-lessac-low").2.1
        "en_US-lessac-low"
      = (.ok ⟨16000⟩,
          (load_voice_model default_config w_ok
            ⟨[], [("en_US-lessac-low", ⟨16000⟩)]⟩ "en_US-lessac-low").2.1,
          []) :=
  ⟨rfl, cache_hit_idempotent default_config w_ok
    ⟨[], [("en_US-lessac-low", ⟨16000⟩)]⟩ "en_US-lessac-low" ⟨16000⟩ rfl⟩

/-- C2 (amended): for a voice identifier outside the static catalog,
`download_voice_model` fails with HTTP 404 before any filesystem or network
access (empty event trace, filesystem unchanged); but a resolution reached
through `load_voice_model` re-reports that failure as HTTP 500, because its
blanket `except Exception` also catches the 404 `HTTPException` — still with
no filesystem or network access and no state change. -/
theorem unknown_voice_resolution (cfg : ServiceConfig) (w : World)
    (st : PiperState) (voice_name : String)
    (hcat : List.lookup voice_name EXTENDED_VOICE_CATALOG = none)
    (hcache : List.lookup voice_name st.voice_models = none) :
    download_voice_model cfg w st.fs voice_name
      = (.error (404, "Voice " ++ voice_name ++ " not found in catalog"),
          st.fs, [])
    ∧ load_voice_model cfg w st voice_name
      = (.error (500, "Failed to load voice model: "
            ++ errStr (404, "Voice " ++ voice_name ++ " not found in catalog")),
          st, []) := by
  have hd : download_voice_model cfg w st.fs voice_name
      = (.error (404, "Voice " ++ voice_name ++ " not found in catalog"),
          st.fs, []) := by
    simp only [download_voice_model, hcat]
  refine ⟨hd, ?_⟩
  simp only [load_voice_model, hcache, hd]

theorem unknown_voice_resolution_witness :
    List.lookup "no-such-voice" EXTENDED_VOICE_CATALOG = none
    ∧ List.lookup "no-such-voice" st_empty.voice_models = none
    ∧ (download_voice_model default_config w_ok st_empty.fs "no-such-voice"
        = (.error (404, "Voice no-such-voice not found in catalog"),
            st_empty.fs, [])
      ∧ load_voice_model default_config w_ok st_empty "no-such-voice"
        = (.error (500,
            "Failed to load voice model: 404: Voice no-such-voice not found in catalog"),
            st_empty, [])) :=
  ⟨by decide, rfl,
    unknown_voice_resolution default_config w_ok st_empty "no-such-voice"
      (by decide) rfl⟩

/-- C2 (counterexample to the claim as stated): resolving an unknown voice
through `load_voice_model` yields HTTP status 500, not the claimed 404. -/
theorem unknown_voice_reported_500_not_404 :
    (load_voice_model default_config w_ok st_empty "no-such-voice").1
      = .error (500,
          "Failed to load voice model: 404: Voice no-such-voice not found in catalog")
    ∧ (500 : Nat) ≠ 404 :=
  ⟨rfl, by decide⟩

/-- A successful `download_voice_model` returns exactly the two artifact
paths of the requested voice. -/
theorem download_ok_paths {cfg : ServiceConfig} {w : World}
    {fs : List String} {voice_name mp cp : String}
    {rest : List String × List Event}
    (h : download_voice_model cfg w fs voice_name = (.ok (mp, cp), rest)) :
    mp = model_path cfg voice_name ∧ cp = config_path cfg voice_name := by
  unfold download_voice_model at h
  cases hcat : List.lookup voice_name EXTENDED_VOICE_CATALOG with
  | none => rw [hcat] at h; simp at h
  | some vi =>
      rw [hcat] at h
      dsimp only at h
      by_cases h1 : model_path cfg voice_name ∈ fs
          ∧ config_path cfg voice_name ∈ fs
      · rw [if_pos h1] at h
        simp only [Prod.mk.injEq, Except.ok.injEq] at h
        exact ⟨h.1.1.symm, h.1.2.symm⟩
      · rw [if_neg h1] at h
        rcases hf1 : fetch_if_missing w fs
            (vi.base_url ++ "/" ++ voice_name ++ ".onnx")
            (model_path cfg voice_name) with ⟨b1, fs1, ev1⟩
        rw [hf1] at h
        cases b1 with
        | false => simp at h
        | true =>
            dsimp only at h
            rcases hf2 : fetch_if_missing w fs1
                (vi.base_url ++ "/" ++ voice_name ++ ".onnx.json")
                (config_path cfg voice_name) with ⟨b2, fs2, ev2⟩
            rw [hf2] at h
            cases b2 with
            | false => simp at h
            | true =>
                simp only [Prod.mk.injEq, Except.ok.injEq] at h
                exact ⟨h.1.1.symm, h.1.2.symm⟩

/-- The operation `load_voice_model` preserves the cache invariant: it inserts into
`voice_models` only a handle that `piper.PiperVoice.load` returned for the
voice's artifact paths, and only after the download succeeded. -/
theorem load_voice_model_preserves_CacheOK (cfg : ServiceConfig) (w : World)
    (st : PiperState) (h : CacheOK cfg w st) (voice_name : String) :
    CacheOK cfg w (load_voice_model cfg w st voice_name).2.1 := by
  unfold load_voice_model
  cases hc : List.lookup voice_name st.voice_models with
  | some m0 => simpa using h
  | none =>
      rcases hd : download_voice_model cfg w st.fs voice_name
        with ⟨res, fs1, tr⟩
      cases res with
      | error e => simpa using h
      | ok mpcp =>
          obtain ⟨mp, cp⟩ := mpcp
          obtain ⟨hmp, hcp⟩ := download_ok_paths hd
          cases hl : w.loadOk mp cp with
          | none => simpa [hl] using h
          | some vm =>
              simp only [hl]
              intro v m hm
              simp only [List.lookup] at hm
              by_cases hv : v = voice_name
              · subst hv
                simp only [beq_self_eq_true] at hm
                obtain rfl : vm = m := by simpa using hm
                rw [← hmp, ← hcp]
                exact hl
              · have hb : (v == voice_name) = false := by
                  simpa using hv
                rw [hb] at hm
                exact h v m hm

/-- C1: every voice identifier present in the model cache maps to a handle
produced by a successful library load of that voice's artifacts, and this
invariant is preserved by `load_voice_model` and by the `/tts` handler
(`text_to_speech`), the only operations that write the cache. -/
theorem cache_holds_only_loaded_models (cfg : ServiceConfig) (w : World)
    (st : PiperState) (h : CacheOK cfg w st) (voice_name : String)
    (request : TTSRequest) :
    CacheOK cfg w (load_voice_model cfg w st voice_name).2.1
    ∧ CacheOK cfg w (text_to_speech cfg w st request).2.1 := by
  refine ⟨load_voice_model_preserves_CacheOK cfg w st h voice_name, ?_⟩
  unfold text_to_speech
  rcases hl : load_voice_model cfg w st (effective_voice cfg request.voice)
    with ⟨res, st1, tr⟩
  have hpres := load_voice_model_preserves_CacheOK cfg w st h
      (effective_voice cfg request.voice)
  rw [hl] at hpres
  cases res with
  | error e => simpa using hpres
  | ok vm =>
      cases hs : w.synth request.text vm with
      | none => simpa [synthesize_audio_sync, hs] using hpres
      | some audio => simpa [synthesize_audio_sync, hs] using hpres

theorem cache_holds_only_loaded_models_witness :
    CacheOK default_config w_ok st_empty
    ∧ (CacheOK default_config w_ok
        (load_voice_model default_config w_ok st_empty "en_US-amy-low").2.1
      ∧ CacheOK default_config w_ok
          (text_to_speech default_config w_ok st_empty
            ⟨"hi", none, 1⟩).2.1) :=
  ⟨fun _ _ hm => absurd hm (by simp [st_empty]),
    cache_holds_only_loaded_models default_config w_ok st_empty
      (fun _ _ hm => absurd hm (by simp [st_empty])) "en_US-amy-low"
      ⟨"hi", none, 1⟩⟩

/-- C3: for every voice in the catalog, when `download_voice_model` signals
failure (a raised exception instead of a successful return), neither the
model file nor the metadata file for that voice remains on disk. -/
theorem failed_download_leaves_no_partial_files (cfg : ServiceConfig)
    (w : World) (fs : List String) (voice_name : String)
    (hcat : (List.lookup voice_name EXTENDED_VOICE_CATALOG).isSome = true)
    (herr : (download_voice_model cfg w fs voice_name).1.isOk = false) :
    model_path cfg voice_name ∉ (download_voice_model cfg w fs voice_name).2.1
    ∧ config_path cfg voice_name
        ∉ (download_voice_model cfg w fs voice_name).2.1 := by
  obtain ⟨vi, hx⟩ : ∃ vi,
      List.lookup voice_name EXTENDED_VOICE_CATALOG = some vi :=
    Option.isSome_iff_exists.mp hcat
  unfold download_voice_model at herr ⊢
  rw [hx] at herr ⊢
  dsimp only at herr ⊢
  by_cases h1 : model_path cfg voice_name ∈ fs
      ∧ config_path cfg voice_name ∈ fs
  · rw [if_pos h1] at herr
    exact Bool.noConfusion herr
  · rw [if_neg h1] at herr ⊢
    rcases hf1 : fetch_if_missing w fs
        (vi.base_url ++ "/" ++ voice_name ++ ".onnx")
        (model_path cfg voice_name) with ⟨b1, fs1, ev1⟩
    rw [hf1] at herr
    cases b1 with
    | false => exact cleanup_loop_clears fs1 _ _
    | true =>
        dsimp only at herr ⊢
        rcases hf2 : fetch_if_missing w fs1
            (vi.base_url ++ "/" ++ voice_name ++ ".onnx.json")
            (config_path cfg voice_name) with ⟨b2, fs2, ev2⟩
        rw [hf2] at herr
        cases b2 with
        | false => exact cleanup_loop_clears fs2 _ _
        | true => exact Bool.noConfusion herr

theorem failed_download_leaves_no_partial_files_witness :
    (List.lookup "en_US-lessac-low" EXTENDED_VOICE_CATALOG).isSome = true
    ∧ (download_voice_model default_config w_net_down []
        "en_US-lessac-low").1.isOk = false
    ∧ (model_path default_config "en_US-lessac-low"
        ∉ (download_voice_model default_config w_net_down []
            "en_US-lessac-low").2.1
      ∧ config_path default_config "en_US-lessac-low"
        ∉ (download_voice_model default_config w_net_down []
            "en_US-lessac-low").2.1) :=
  ⟨rfl, rfl,
    failed_download_leaves_no_partial_files default_config w_net_down []
      "en_US-lessac-low" rfl rfl⟩

/-- C10: on a download failure the cleanup loop unconditionally deletes
both artifact paths — including a model file that was already fully present
before the call: if the model file exists and only the metadata fetch
fails, the call fails and afterwards neither artifact exists on disk. -/
theorem failed_download_deletes_preexisting_artifact (cfg : ServiceConfig)
    (w : World) (fs : List String) (voice_name : String)
    (vi : VoiceCatalogEntry)
    (hcat : List.lookup voice_name EXTENDED_VOICE_CATALOG = some vi)
    (hmp : model_path cfg voice_name ∈ fs)
    (hcp : config_path cfg voice_name ∉ fs)
    (hfail : w.fetchOk (vi.base_url ++ "/" ++ voice_name ++ ".onnx.json")
      = false) :
    (download_voice_model cfg w fs voice_name).1.isOk = false
    ∧ model_path cfg voice_name
        ∉ (download_voice_model cfg w fs voice_name).2.1
    ∧ config_path cfg voice_name
        ∉ (download_voice_model cfg w fs voice_name).2.1 := by
  have h1 : ¬(model_path cfg voice_name ∈ fs
      ∧ config_path cfg voice_name ∈ fs) := fun hc => hcp hc.2
  have hf1 : fetch_if_missing w fs
      (vi.base_url ++ "/" ++ voice_name ++ ".onnx")
      (model_path cfg voice_name)
      = (true, fs, [Event.fsExists (model_path cfg voice_name)]) := by
    unfold fetch_if_missing
    rw [if_pos hmp]
  have hf2 : fetch_if_missing w fs
      (vi.base_url ++ "/" ++ voice_name ++ ".onnx.json")
      (config_path cfg voice_name)
      = (false,
          if w.partialOnFail (vi.base_url ++ "/" ++ voice_name ++ ".onnx.json")
            then config_path cfg voice_name :: fs else fs,
          [Event.fsExists (config_path cfg voice_name),
            Event.netFetch (vi.base_url ++ "/" ++ voice_name ++ ".onnx.json")]) := by
    unfold fetch_if_missing
    rw [if_neg hcp, if_neg (by simp [hfail])]
  unfold download_voice_model
  rw [hcat]
  dsimp only
  rw [if_neg h1, hf1]
  dsimp only
  rw [hf2]
  exact ⟨rfl,
    cleanup_loop_clears _ _ _ |>.1,
    cleanup_loop_clears _ _ _ |>.2⟩

theorem failed_download_deletes_preexisting_artifact_witness :
    List.lookup "en_US-lessac-low" EXTENDED_VOICE_CATALOG
      = some ⟨"English (US)", "Lessac", "low", 16000, "female",
          "https://huggingface.co/rhasspy/piper-voices/resolve/v1.0.0/en/en_US/lessac/low"⟩
    ∧ model_path default_config "en_US-lessac-low"
        ∈ [model_path default_config "en_US-lessac-low"]
    ∧ config_path default_config "en_US-lessac-low"
        ∉ [model_path default_config "en_US-lessac-low"]
    ∧ w_net_down.fetchOk
        ("https://huggingface.co/rhasspy/piper-voices/resolve/v1.0.0/en/en_US/lessac/low"
          ++ "/" ++ "en_US-lessac-low" ++ ".onnx.json") = false
    ∧ ((download_voice_model default_config w_net_down
          [model_path default_config "en_US-lessac-low"]
          "en_US-lessac-low").1.isOk = false
      ∧ model_path default_config "en_US-lessac-low"
          ∉ (download_voice_model default_config w_net_down
              [model_path default_config "en_US-lessac-low"]
              "en_US-lessac-low").2.1
      ∧ config_path default_config "en_US-lessac-low"
          ∉ (download_voice_model default_config w_net_down
              [model_path default_config "en_US-lessac-low"]
              "en_US-lessac-low").2.1) :=
  ⟨rfl, by simp, by decide, rfl,
    failed_download_deletes_preexisting_artifact default_config w_net_down
      [model_path default_config "en_US-lessac-low"] "en_US-lessac-low"
      ⟨"English (US)", "Lessac", "low", 16000, "female",
        "https://huggingface.co/rhasspy/piper-voices/resolve/v1.0.0/en/en_US/lessac/low"⟩
      rfl (by simp) (by decide) rfl⟩

/-- A valid configuration whose `PIPER_MAX_TEXT_LENGTH` is 100. -/
def cfg_small_limit : ServiceConfig :=
  { default_config with max_text_length := 100 }

/-- A 101-character request text. -/
def text101 : String := String.mk (List.replicate 101 'a')

/-- A 10001-character request text. -/
def text10001 : String := String.mk (List.replicate 10001 'a')

/-- C4 (counterexample to the claim as stated): with the validated
configuration `PIPER_MAX_TEXT_LENGTH = 100`, a 101-character request is not
rejected — the full `/tts` path accepts it and synthesis runs, because
request validation uses the literal `max_length=10000` of the pydantic
`Field`, never the configured maximum. -/
theorem oversized_text_not_rejected_counterexample :
    cfg_small_limit.validate = true
    ∧ text101.length = 101
    ∧ cfg_small_limit.max_text_length = 100
    ∧ (post_tts cfg_small_limit w_ok st_empty text101 none 1).1
        = .ok ⟨1, 2, 16000, [0]⟩ :=
  ⟨by decide, by decide, rfl, rfl⟩

/-- C4 (amended): a request whose text exceeds 10000 characters — the
hardcoded pydantic `max_length`, which equals the configured maximum only
at its default value — is rejected with a client error before any model
load or synthesis call: the state is untouched and the event trace is
empty.  The configured `max_text_length` itself is never consulted by
request validation. -/
theorem oversized_text_rejected_at_hardcoded_limit (cfg : ServiceConfig)
    (w : World) (st : PiperState) (text : String) (voice : Option String)
    (speed : ℚ) (hcfg : cfg.max_text_length = 10000)
    (hlen : cfg.max_text_length < text.length) :
    post_tts cfg w st text voice speed
      = (.error (422, "text too long"), st, []) := by
  have h10k : 10000 < text.length := hcfg ▸ hlen
  unfold post_tts parse_tts_request
  rw [if_neg (by omega), if_pos h10k]

theorem oversized_text_rejected_witness :
    default_config.max_text_length = 10000
    ∧ default_config.max_text_length < text10001.length
    ∧ post_tts default_config w_ok st_empty text10001 none 1
        = (.error (422, "text too long"), st_empty, []) := by
  have hlen : text10001.length = 10001 := by
    rw [text10001]
    show (List.replicate 10001 'a').length = 10001
    exact List.length_replicate 10001 'a'
  refine ⟨rfl, ?_, ?_⟩
  · rw [hlen]
    decide
  · exact oversized_text_rejected_at_hardcoded_limit default_config w_ok
      st_empty text10001 none 1 rfl (by rw [hlen]; decide)

/-- The SRT cue counter: the first line of the `k`-th cue block (0-based
`k`, four lines per block) is the cue number `i + k` when numbering starts
at `i`. -/
theorem format_srt_lines_numbering (segments : List Segment) :
    ∀ (i k : Nat), (format_srt_lines i segments)[4 * k]?
      = if k < segments.length then some (Nat.repr (i + k)) else none := by
  induction segments with
  | nil => intro i k; simp [format_srt_lines]
  | cons seg rest ih =>
      intro i k
      cases k with
      | zero => simp [format_srt_lines]
      | succ k =>
          have h4 : 4 * (k + 1) = 4 * k + 1 + 1 + 1 + 1 := by ring
          simp only [format_srt_lines, h4, List.getElem?_cons_succ]
          rw [ih (i + 1) k]
          have hik : i + 1 + k = i + (k + 1) := by omega
          rw [hik]
          simp [Nat.succ_lt_succ_iff]

/-- C6: the VTT formatter renders 3661.5 s as `01:01:01.500`, the SRT
formatter renders it as `01:01:01,500`, and the SRT formatter numbers its
cues starting at index 1 in segment order. -/
theorem timestamp_formatting :
    seconds_to_vtt_time (7323 / 2 : ℚ) = "01:01:01.500"
    ∧ seconds_to_srt_time (7323 / 2 : ℚ) = "01:01:01,500"
    ∧ ∀ (segments : List Segment) (k : Nat),
        (format_srt_lines 1 segments)[4 * k]?
          = if k < segments.length then some (Nat.repr (1 + k)) else none := by
  have hA : ⌊(7323 / 2 : ℚ) / 3600⌋ = 1 := by
    rw [Int.floor_eq_iff]
    norm_num
  have hB : pyMod (7323 / 2 : ℚ) 3600 = 123 / 2 := by
    rw [pyMod, hA]
    norm_num
  have hC : ⌊(123 / 2 : ℚ) / 60⌋ = 1 := by
    rw [Int.floor_eq_iff]
    norm_num
  have hD61 : ⌊(7323 / 2 : ℚ) / 60⌋ = 61 := by
    rw [Int.floor_eq_iff]
    norm_num
  have hD : pyMod (7323 / 2 : ℚ) 60 = 3 / 2 := by
    rw [pyMod, hD61]
    norm_num
  have hE : round ((3 / 2 : ℚ) * 1000) = 1500 := by
    rw [round_eq, Int.floor_eq_iff]
    norm_num
  refine ⟨?_, ?_, fun segments k => format_srt_lines_numbering segments 1 k⟩
  · simp only [seconds_to_vtt_time, fmtSecs6_3, hA, hB, hC, hD, hE]
    rfl
  · have hF0 : ⌊(3 / 2 : ℚ) / 1⌋ = 1 := by
      rw [Int.floor_eq_iff]
      norm_num
    have hF1 : pyMod (3 / 2 : ℚ) 1 = 1 / 2 := by
      rw [pyMod, hF0]
      norm_num
    have hG0 : ⌊(1 / 2 : ℚ) * 1000⌋ = 500 := by
      rw [Int.floor_eq_iff]
      norm_num
    have hG : pyInt ((1 / 2 : ℚ) * 1000) = 500 := by
      rw [pyInt, if_pos (by norm_num), hG0]
    have hH0 : ⌊(3 / 2 : ℚ)⌋ = 1 := by
      rw [Int.floor_eq_iff]
      norm_num
    have hH : pyInt (3 / 2 : ℚ) = 1 := by
      rw [pyInt, if_pos (by norm_num), hH0]
    simp only [seconds_to_srt_time, hA, hB, hC, hD, hF1, hG, hH]
    rfl
